import Mathlib

/-!
Verification development for the mesh control-plane protocol of the
`Proyecto_redes` repository (ESP32 painlessMesh sensor nodes plus an
MQTT gateway).  The node control handler (`receivedCallback` in
`NODO_LUZ.cpp` and the DHT node), the gateway bridge functions
(`mqttCallback`, `receivedCallback`, `reconnect` in `GATEWAY.cpp`) and
the JSON envelope layout are embedded shallowly below, and the
protocol properties of the specification are proved about them.
-/

namespace Redes

/-- JSON values as manipulated by ArduinoJson documents in the source.
Numbers are natural numbers: every numeric field of the protocol is an
unsigned 32-bit integer (`uint32_t`) on the wire. -/
inductive Json where
  | null : Json
  | str (s : String) : Json
  | num (n : Nat) : Json
  | arr (xs : List Json) : Json
  | obj (fields : List (String × Json)) : Json
deriving Repr

/-- Association lookup on a JSON object's field list: first match wins,
as ArduinoJson's `operator[]` returns the first member with the key. -/
def jLookup : List (String × Json) → String → Option Json
  | [], _ => none
  | (k, v) :: rest, key => if k = key then some v else jLookup rest key

/-- Member access `doc[key]`: `none` when the document is not an object
or the key is absent. -/
def Json.member : Json → String → Option Json
  | Json.obj fs, key => jLookup fs key
  | _, _ => none

/-- Reading a member as a C string: the string value, or null when the
member is absent or not a string (`const char* type = doc["type"]`). -/
def asCString : Option Json → Option String
  | some (Json.str s) => some s
  | _ => none

/-- Reading a member as `uint32_t`: the numeric value truncated to 32
bits, and `0` when the member is absent or not a number. -/
def asU32 : Option Json → Nat
  | some (Json.num n) => n % 4294967296
  | _ => 0

/-- Shorthand for `doc[key].as<uint32_t>()`. -/
def getU32 (d : Json) (k : String) : Nat := asU32 (d.member k)

/-- Conversion of one JSON array element to `uint32_t`
(`for (uint32_t hop : hops)`): numbers are truncated to 32 bits, other
values read as `0`. -/
def elemU32 : Json → Nat
  | Json.num n => n % 4294967296
  | _ => 0

/-- Effect of `doc["hops"].as<JsonArray>(); hops.add(myId)` on the
object's field list: the first `"hops"` member, when it is an array,
gets `myId` appended; when it is absent or not an array the `add` is a
no-op on a null `JsonArray` and the document is unchanged. -/
def addHopFields : List (String × Json) → Nat → List (String × Json)
  | [], _ => []
  | (k, v) :: rest, myId =>
    if k = "hops" then
      match v with
      | Json.arr xs => (k, Json.arr (xs ++ [Json.num myId])) :: rest
      | _ => (k, v) :: rest
    else (k, v) :: addHopFields rest myId

/-- The received TRACE document after the in-place hop append. -/
def addHop (d : Json) (myId : Nat) : Json :=
  match d with
  | Json.obj fs => Json.obj (addHopFields fs myId)
  | _ => d

/-- A mesh transmission issued by a handler: `mesh.sendSingle(dest, m)`
or `mesh.sendBroadcast(m)`.  The payload type is a parameter because
node handlers send JSON documents while the gateway forwards the raw
broker string. -/
inductive Send (α : Type) where
  | single (dest : Nat) (msg : α) : Send α
  | broadcast (msg : α) : Send α
deriving Repr

/-- The node control handler `receivedCallback(from, msg)` of
`NODO_LUZ.cpp` (identical dispatch in the DHT node file): the message
has already been run through `deserializeJson`, whose result is the
`decoded : Option Json` argument (`none` = `DeserializationError`).
The returned list is the sequence of mesh transmissions the handler
performs; everything else the handler does is serial logging. -/
def receivedCallback (myId : Nat) (nodeList : List Nat) (sender : Nat)
    (decoded : Option Json) : List (Send Json) :=
  match decoded with
  | none => []
  | some doc =>
    match asCString (doc.member "type") with
    | none => []
    | some t =>
      if t = "PING" then
        let toV := getU32 doc "to"
        let seqV := getU32 doc "seq"
        let requester := getU32 doc "from"
        if toV = myId then
          [Send.single requester (Json.obj
            [("type", Json.str "PONG"), ("seq", Json.num seqV),
             ("from", Json.num myId)])]
        else []
      else if t = "TOPO_REQ" then
        let requester := getU32 doc "from"
        [Send.single requester (Json.obj
          [("type", Json.str "TOPO"),
           ("neighbors", Json.arr (nodeList.map Json.num))])]
      else if t = "PONG" then []
      else if t = "TRACE" then
        let toV := getU32 doc "to"
        let seqV := getU32 doc "seq"
        let originator := getU32 doc "from"
        let doc2 := addHop doc myId
        let hopsV := match doc2.member "hops" with
          | some (Json.arr xs) => xs
          | _ => []
        if toV = myId then
          [Send.single originator (Json.obj
            [("type", Json.str "TRACE_REPLY"), ("seq", Json.num seqV),
             ("from", Json.num myId),
             ("hops", Json.arr (hopsV.map (fun h => Json.num (elemU32 h))))])]
        else
          [Send.single toV doc2]
      else []

/-- Broker topic root for sensor data (`MQTT_TOPIC` in `GATEWAY.cpp`). -/
def dataTopicRoot : String := "Nodos/datos"

/-- Broker control topic (`MQTT_TOPIC_CONTROL` in `GATEWAY.cpp`). -/
def controlTopic : String := "Nodos/control"

/-- The gateway's broker control-message handler `mqttCallback(topic,
payload, length)`: the payload bytes `raw` are accumulated into a
string and run through `deserializeJson`, whose result is `decoded`.
On decode failure nothing is sent into the mesh; on success `to == 0`
broadcasts the raw string, any other `to` unicasts it. -/
def mqttCallback (raw : String) (decoded : Option Json) : List (Send String) :=
  match decoded with
  | none => []
  | some doc =>
    let toV := getU32 doc "to"
    if toV = 0 then [Send.broadcast raw]
    else [Send.single toV raw]

/-- A broker publish attempt `client.publish(topic, payload)`. -/
structure Publish where
  topic : String
  payload : String
deriving Repr, DecidableEq

/-- The gateway's mesh receive handler `receivedCallback(from, msg)` in
`GATEWAY.cpp`: when the broker client is connected the raw mesh
payload is published to `<data-root>/<from>`; when it is not, the
message is only logged and dropped — no publish, no queueing. -/
def gatewayReceivedCallback (connected : Bool) (fromId : Nat)
    (msg : String) : List Publish :=
  if connected then
    [{ topic := dataTopicRoot ++ "/" ++ toString fromId, payload := msg }]
  else []

/-- One observable action of the gateway's `reconnect()` loop. -/
inductive BrokerAct where
  | connectOk : BrokerAct
  | connectFail : BrokerAct
  | subscribe (topic : String) : BrokerAct
deriving Repr, DecidableEq

/-- The gateway's `reconnect()` routine, entered with the client
disconnected.  `attempts` is the oracle of outcomes of successive
`client.connect(clientId)` calls; the routine loops (delaying 5 s
after each failure) until one succeeds, subscribes to the control
topic, and returns.  `none` means the oracle ran out before a success,
i.e. the loop has not terminated. -/
def reconnect : List Bool → Option (List BrokerAct)
  | [] => none
  | ok :: rest =>
    if ok then
      some [BrokerAct.connectOk, BrokerAct.subscribe controlTopic]
    else
      match reconnect rest with
      | some acts => some (BrokerAct.connectFail :: acts)
      | none => none

/-- Delivery of one message along a chain of nodes: the message is
handed to the first node's `receivedCallback`; when more nodes follow,
the single forwarded message (if the handler produced exactly one
unicast) is handed to the next node, and the result is the final
node's transmissions.  This composes the per-node handler into the
multi-hop TRACE scenario of the specification. -/
def runChain : Json → List Nat → List (Send Json)
  | _, [] => []
  | m, n :: rest =>
    let outs := receivedCallback n [] 0 (some m)
    match rest with
    | [] => outs
    | _ :: _ =>
      match outs with
      | [Send.single _ m2] => runChain m2 rest
      | _ => []

/-- The canonical TRACE request document, with the field layout used
by the dashboard (`README.md`: `{"type", "to", "from", "seq"}`, plus
the `hops` path record). -/
def traceJson (toId fromId seq : Nat) (hops : List Nat) : Json :=
  Json.obj [("type", Json.str "TRACE"), ("to", Json.num toId),
            ("from", Json.num fromId), ("seq", Json.num seq),
            ("hops", Json.arr (hops.map Json.num))]

/-- The TRACE_REPLY document as built by the destination node. -/
def traceReplyJson (seq fromId : Nat) (hops : List Nat) : Json :=
  Json.obj [("type", Json.str "TRACE_REPLY"), ("seq", Json.num seq),
            ("from", Json.num fromId),
            ("hops", Json.arr (hops.map Json.num))]

/-- The PONG document as built by the PING branch of the handler. -/
def pongJson (seq fromId : Nat) : Json :=
  Json.obj [("type", Json.str "PONG"), ("seq", Json.num seq),
            ("from", Json.num fromId)]

/-- The typed envelopes of the protocol.  Request layouts (`PING`,
`TOPO_REQ`, `TRACE`) follow the documented dashboard wire format;
reply layouts (`PONG`, `TOPO`, `TRACE_REPLY`) follow the documents the
node handler builds.  A `DATA` envelope is an opaque sensor document:
anything whose `type` member is not one of the six control tags. -/
inductive Envelope where
  | data (payload : Json) : Envelope
  | ping (toId fromId seq : Nat) : Envelope
  | pong (seq fromId : Nat) : Envelope
  | topoReq (toId fromId seq : Nat) : Envelope
  | topo (neighbors : List Nat) : Envelope
  | trace (toId fromId seq : Nat) (hops : List Nat) : Envelope
  | traceReply (seq fromId : Nat) (hops : List Nat) : Envelope
deriving Repr

/-- Envelope serialization: the JSON document put on the wire for each
envelope type (requests as the dashboard publishes them, replies as
the handler serializes them, `DATA` as the sensor task's document). -/
def encode : Envelope → Json
  | Envelope.data p => p
  | Envelope.ping toId fromId seq =>
      Json.obj [("type", Json.str "PING"), ("to", Json.num toId),
                ("from", Json.num fromId), ("seq", Json.num seq)]
  | Envelope.pong seq fromId => pongJson seq fromId
  | Envelope.topoReq toId fromId seq =>
      Json.obj [("type", Json.str "TOPO_REQ"), ("to", Json.num toId),
                ("from", Json.num fromId), ("seq", Json.num seq)]
  | Envelope.topo neighbors =>
      Json.obj [("type", Json.str "TOPO"),
                ("neighbors", Json.arr (neighbors.map Json.num))]
  | Envelope.trace toId fromId seq hops => traceJson toId fromId seq hops
  | Envelope.traceReply seq fromId hops => traceReplyJson seq fromId hops

/-- A member that is an array of protocol identifiers, each read as
`uint32_t`; absent or non-array members read as the empty list. -/
def getU32List (d : Json) (k : String) : List Nat :=
  match d.member k with
  | some (Json.arr xs) => xs.map elemU32
  | _ => []

/-- Envelope deserialization, reading fields exactly as the handlers
do: dispatch on the `type` string, numeric members via `as<uint32_t>`,
list members element-wise as `uint32_t`; a document without a
recognized control `type` is an opaque `DATA` envelope. -/
def decode (j : Json) : Envelope :=
  match asCString (j.member "type") with
  | none => Envelope.data j
  | some t =>
    if t = "PING" then
      Envelope.ping (getU32 j "to") (getU32 j "from") (getU32 j "seq")
    else if t = "PONG" then
      Envelope.pong (getU32 j "seq") (getU32 j "from")
    else if t = "TOPO_REQ" then
      Envelope.topoReq (getU32 j "to") (getU32 j "from") (getU32 j "seq")
    else if t = "TOPO" then
      Envelope.topo (getU32List j "neighbors")
    else if t = "TRACE" then
      Envelope.trace (getU32 j "to") (getU32 j "from") (getU32 j "seq")
        (getU32List j "hops")
    else if t = "TRACE_REPLY" then
      Envelope.traceReply (getU32 j "seq") (getU32 j "from")
        (getU32List j "hops")
    else Envelope.data j

/-- Whether a `type` member value is one of the six control tags. -/
def isControlTag : Option String → Bool
  | some t =>
      t == "PING" || t == "PONG" || t == "TOPO_REQ" || t == "TOPO" ||
      t == "TRACE" || t == "TRACE_REPLY"
  | none => false

/-- Whether a natural number fits in `uint32_t`. -/
def u32ok (n : Nat) : Bool := decide (n < 4294967296)

/-- Constructibility of an envelope: every numeric field is a
`uint32_t` value (as it is in the C++ source), and a `DATA` payload
does not masquerade as a control message. -/
def wfEnvelope : Envelope → Bool
  | Envelope.data p => !(isControlTag (asCString (p.member "type")))
  | Envelope.ping toId fromId seq => u32ok toId && u32ok fromId && u32ok seq
  | Envelope.pong seq fromId => u32ok seq && u32ok fromId
  | Envelope.topoReq toId fromId seq => u32ok toId && u32ok fromId && u32ok seq
  | Envelope.topo neighbors => neighbors.all u32ok
  | Envelope.trace toId fromId seq hops =>
      u32ok toId && u32ok fromId && u32ok seq && hops.all u32ok
  | Envelope.traceReply seq fromId hops =>
      u32ok seq && u32ok fromId && hops.all u32ok

/-! ### Helper lemmas on the hop append and the object lookup -/

theorem jLookup_addHopFields_ne (fs : List (String × Json)) (myId : Nat)
    (k : String) (hk : k ≠ "hops") :
    jLookup (addHopFields fs myId) k = jLookup fs k := by
  induction fs with
  | nil => rfl
  | cons p rest ih =>
    obtain ⟨k2, v⟩ := p
    by_cases h : k2 = "hops"
    · subst h
      cases v <;> simp [addHopFields, jLookup, hk, Ne.symm hk]
    · simp [addHopFields, jLookup, h, ih]

theorem jLookup_addHopFields_hops (fs : List (String × Json)) (myId : Nat)
    (xs : List Json) (h : jLookup fs "hops" = some (Json.arr xs)) :
    jLookup (addHopFields fs myId) "hops"
      = some (Json.arr (xs ++ [Json.num myId])) := by
  induction fs with
  | nil => simp [jLookup] at h
  | cons p rest ih =>
    obtain ⟨k2, v⟩ := p
    by_cases hk : k2 = "hops"
    · subst hk
      simp [jLookup] at h
      subst h
      simp [addHopFields, jLookup]
    · simp [jLookup, hk] at h
      simp [addHopFields, jLookup, hk, ih h]

theorem addHop_member_ne (d : Json) (myId : Nat) (k : String)
    (hk : k ≠ "hops") : (addHop d myId).member k = d.member k := by
  cases d <;> simp [addHop, Json.member]
  exact jLookup_addHopFields_ne _ _ _ hk

theorem addHop_member_hops (d : Json) (myId : Nat) (xs : List Json)
    (h : d.member "hops" = some (Json.arr xs)) :
    (addHop d myId).member "hops"
      = some (Json.arr (xs ++ [Json.num myId])) := by
  cases d <;> simp [addHop, Json.member] at h ⊢
  exact jLookup_addHopFields_hops _ _ _ h

theorem addHop_traceJson (toId fromId seq myId : Nat) (hops : List Nat) :
    addHop (traceJson toId fromId seq hops) myId
      = traceJson toId fromId seq (hops ++ [myId]) := by
  simp [traceJson, addHop, addHopFields]

/-! ### Case lemmas for the node control handler -/

theorem rc_ping_hit (myId : Nat) (nl : List Nat) (sender : Nat) (doc : Json)
    (htype : doc.member "type" = some (Json.str "PING"))
    (hto : getU32 doc "to" = myId) :
    receivedCallback myId nl sender (some doc)
      = [Send.single (getU32 doc "from") (pongJson (getU32 doc "seq") myId)] := by
  simp [receivedCallback, asCString, htype, hto, pongJson]

theorem rc_ping_miss (myId : Nat) (nl : List Nat) (sender : Nat) (doc : Json)
    (htype : doc.member "type" = some (Json.str "PING"))
    (hto : getU32 doc "to" ≠ myId) :
    receivedCallback myId nl sender (some doc) = [] := by
  simp [receivedCallback, asCString, htype, hto]

theorem rc_topo_req (myId : Nat) (nl : List Nat) (sender : Nat) (doc : Json)
    (htype : doc.member "type" = some (Json.str "TOPO_REQ")) :
    receivedCallback myId nl sender (some doc)
      = [Send.single (getU32 doc "from") (Json.obj
          [("type", Json.str "TOPO"),
           ("neighbors", Json.arr (nl.map Json.num))])] := by
  simp [receivedCallback, asCString, htype]

theorem rc_pong (myId : Nat) (nl : List Nat) (sender : Nat) (doc : Json)
    (htype : doc.member "type" = some (Json.str "PONG")) :
    receivedCallback myId nl sender (some doc) = [] := by
  simp [receivedCallback, asCString, htype]

theorem rc_trace_reply_in (myId : Nat) (nl : List Nat) (sender : Nat)
    (doc : Json)
    (htype : doc.member "type" = some (Json.str "TRACE_REPLY")) :
    receivedCallback myId nl sender (some doc) = [] := by
  simp [receivedCallback, asCString, htype]

theorem rc_trace_forward (myId : Nat) (nl : List Nat) (sender : Nat)
    (doc : Json)
    (htype : doc.member "type" = some (Json.str "TRACE"))
    (hto : getU32 doc "to" ≠ myId) :
    receivedCallback myId nl sender (some doc)
      = [Send.single (getU32 doc "to") (addHop doc myId)] := by
  simp [receivedCallback, asCString, htype, hto]

theorem rc_trace_dest (myId : Nat) (nl : List Nat) (sender : Nat)
    (doc : Json) (xs : List Json)
    (htype : doc.member "type" = some (Json.str "TRACE"))
    (hto : getU32 doc "to" = myId)
    (hhops : doc.member "hops" = some (Json.arr xs)) :
    receivedCallback myId nl sender (some doc)
      = [Send.single (getU32 doc "from") (Json.obj
          [("type", Json.str "TRACE_REPLY"),
           ("seq", Json.num (getU32 doc "seq")),
           ("from", Json.num myId),
           ("hops", Json.arr ((xs ++ [Json.num myId]).map
             (fun h => Json.num (elemU32 h))))])] := by
  simp [receivedCallback, asCString, htype, hto,
        addHop_member_hops doc myId xs hhops]

/-! ### Canonical TRACE documents under the handler -/

theorem traceJson_type (toId fromId seq : Nat) (hops : List Nat) :
    (traceJson toId fromId seq hops).member "type"
      = some (Json.str "TRACE") := rfl

theorem traceJson_getU32_to (toId fromId seq : Nat) (hops : List Nat)
    (h : toId < 4294967296) :
    getU32 (traceJson toId fromId seq hops) "to" = toId := by
  simp [traceJson, getU32, Json.member, jLookup, asU32, Nat.mod_eq_of_lt h]

theorem traceJson_getU32_from (toId fromId seq : Nat) (hops : List Nat)
    (h : fromId < 4294967296) :
    getU32 (traceJson toId fromId seq hops) "from" = fromId := by
  simp [traceJson, getU32, Json.member, jLookup, asU32, Nat.mod_eq_of_lt h]

theorem traceJson_getU32_seq (toId fromId seq : Nat) (hops : List Nat)
    (h : seq < 4294967296) :
    getU32 (traceJson toId fromId seq hops) "seq" = seq := by
  simp [traceJson, getU32, Json.member, jLookup, asU32, Nat.mod_eq_of_lt h]

theorem traceJson_hops (toId fromId seq : Nat) (hops : List Nat) :
    (traceJson toId fromId seq hops).member "hops"
      = some (Json.arr (hops.map Json.num)) := rfl

/-- A TRACE not addressed to the receiving node is forwarded to its `to`
with the node's own identifier appended to the path record. -/
theorem trace_forward_canonical (myId toId fromId seq : Nat)
    (nl : List Nat) (sender : Nat) (hops : List Nat)
    (hto : toId < 4294967296) (hne : toId ≠ myId) :
    receivedCallback myId nl sender (some (traceJson toId fromId seq hops))
      = [Send.single toId (traceJson toId fromId seq (hops ++ [myId]))] := by
  rw [rc_trace_forward myId nl sender _ (traceJson_type toId fromId seq hops)
        (by rw [traceJson_getU32_to toId fromId seq hops hto]; exact hne),
      traceJson_getU32_to toId fromId seq hops hto, addHop_traceJson]

/-- A TRACE addressed to the receiving node produces the TRACE_REPLY to
the originator, its path record ending in the destination itself. -/
theorem trace_dest_canonical (toId fromId seq : Nat)
    (nl : List Nat) (sender : Nat) (hops : List Nat)
    (hto : toId < 4294967296) (hfrom : fromId < 4294967296)
    (hseq : seq < 4294967296) (hhops : ∀ h ∈ hops, h < 4294967296) :
    receivedCallback toId nl sender (some (traceJson toId fromId seq hops))
      = [Send.single fromId (traceReplyJson seq toId (hops ++ [toId]))] := by
  rw [rc_trace_dest toId nl sender _ (hops.map Json.num)
        (traceJson_type toId fromId seq hops)
        (traceJson_getU32_to toId fromId seq hops hto)
        (traceJson_hops toId fromId seq hops),
      traceJson_getU32_from toId fromId seq hops hfrom,
      traceJson_getU32_seq toId fromId seq hops hseq]
  have hmap : (hops.map Json.num ++ [Json.num toId]).map
      (fun h => Json.num (elemU32 h)) = (hops ++ [toId]).map Json.num := by
    simp only [List.map_append, List.map_map]
    congr 1
    · exact List.map_congr_left fun a ha => by
        simp [elemU32, Nat.mod_eq_of_lt (hhops a ha)]
    · simp [elemU32, Nat.mod_eq_of_lt hto]
  rw [hmap]
  rfl

/-- A handler step that forwards exactly one unicast advances the chain. -/
theorem runChain_cons_of_forward (m m2 : Json) (n d : Nat)
    (rest : List Nat) (hrest : rest ≠ [])
    (h : receivedCallback n [] 0 (some m) = [Send.single d m2]) :
    runChain m (n :: rest) = runChain m2 rest := by
  cases rest with
  | nil => exact absurd rfl hrest
  | cons r rs => simp [runChain, h]

/-! ### Claim theorems -/

/-- C1: a PING envelope with `to = X`, `seq = S`, `from = R` delivered to
the node whose identifier is `X` makes the handler emit exactly one PONG
with `seq = S` and `from = X`, unicast to `R` — the request's `from`
field, whatever the mesh-level `sender` was; delivered to a node whose
identifier differs from `X`, the handler emits no mesh message. -/
theorem ping_pong_unicast (myId : Nat) (nl : List Nat) (sender : Nat)
    (doc : Json) (X S R : Nat)
    (htype : doc.member "type" = some (Json.str "PING"))
    (hto : getU32 doc "to" = X) (hseq : getU32 doc "seq" = S)
    (hfrom : getU32 doc "from" = R) :
    (X = myId → receivedCallback myId nl sender (some doc)
        = [Send.single R (pongJson S myId)])
    ∧ (X ≠ myId → receivedCallback myId nl sender (some doc) = []) := by
  constructor
  · intro h
    rw [rc_ping_hit myId nl sender doc htype (hto.trans h), hseq, hfrom]
  · intro h
    exact rc_ping_miss myId nl sender doc htype (by rw [hto]; exact h)

theorem ping_pong_unicast_witness :
    receivedCallback 5 [] 3 (some (Json.obj [("type", Json.str "PING"),
      ("to", Json.num 5), ("from", Json.num 9), ("seq", Json.num 7)]))
      = [Send.single 9 (pongJson 7 5)]
    ∧ receivedCallback 4 [] 3 (some (Json.obj [("type", Json.str "PING"),
      ("to", Json.num 5), ("from", Json.num 9), ("seq", Json.num 7)])) = [] :=
  ⟨(ping_pong_unicast 5 [] 3 (Json.obj [("type", Json.str "PING"),
      ("to", Json.num 5), ("from", Json.num 9), ("seq", Json.num 7)])
      5 7 9 rfl rfl rfl rfl).1 rfl,
   (ping_pong_unicast 4 [] 3 (Json.obj [("type", Json.str "PING"),
      ("to", Json.num 5), ("from", Json.num 9), ("seq", Json.num 7)])
      5 7 9 rfl rfl rfl rfl).2 (by decide)⟩

/-- C4: the gateway's broker control handler sends nothing into the mesh
when envelope decode fails; on success it broadcasts the raw message when
the envelope's `to` reads `0` and unicasts it to `to` otherwise. -/
theorem broker_control_dispatch (raw : String) (doc : Json) (t : Nat)
    (hto : getU32 doc "to" = t) :
    mqttCallback raw none = []
    ∧ (t = 0 → mqttCallback raw (some doc) = [Send.broadcast raw])
    ∧ (t ≠ 0 → mqttCallback raw (some doc) = [Send.single t raw]) := by
  refine ⟨rfl, ?_, ?_⟩ <;> intro h <;> simp [mqttCallback, hto, h]

theorem broker_control_dispatch_witness :
    mqttCallback "m" none = []
    ∧ mqttCallback "m" (some (Json.obj [("type", Json.str "PING"),
        ("to", Json.num 0)])) = [Send.broadcast "m"]
    ∧ mqttCallback "m" (some (Json.obj [("type", Json.str "PING"),
        ("to", Json.num 42)])) = [Send.single 42 "m"] :=
  ⟨(broker_control_dispatch "m" (Json.obj [("type", Json.str "PING"),
      ("to", Json.num 0)]) 0 rfl).1,
   (broker_control_dispatch "m" (Json.obj [("type", Json.str "PING"),
      ("to", Json.num 0)]) 0 rfl).2.1 rfl,
   (broker_control_dispatch "m" (Json.obj [("type", Json.str "PING"),
      ("to", Json.num 42)]) 42 rfl).2.2 (by decide)⟩

/-- C6: PONG and TRACE_REPLY are terminal at a plain node — the handler
emits no mesh message for either; they are consumed locally. -/
theorem reply_envelopes_terminal (myId : Nat) (nl : List Nat)
    (sender : Nat) (doc : Json) :
    (doc.member "type" = some (Json.str "PONG") →
       receivedCallback myId nl sender (some doc) = [])
    ∧ (doc.member "type" = some (Json.str "TRACE_REPLY") →
       receivedCallback myId nl sender (some doc) = []) :=
  ⟨rc_pong myId nl sender doc, rc_trace_reply_in myId nl sender doc⟩

theorem reply_envelopes_terminal_witness :
    receivedCallback 1 [] 9 (some (Json.obj [("type", Json.str "PONG"),
      ("seq", Json.num 7), ("from", Json.num 5)])) = []
    ∧ receivedCallback 1 [] 9 (some (Json.obj
      [("type", Json.str "TRACE_REPLY"), ("seq", Json.num 7),
       ("from", Json.num 5), ("hops", Json.arr [Json.num 2])])) = [] :=
  ⟨(reply_envelopes_terminal 1 [] 9 _).1 rfl,
   (reply_envelopes_terminal 1 [] 9 _).2 rfl⟩

/-- C7: the gateway publishes a received mesh data payload to
`<data-root>/<nodeId>` exactly when the broker client is connected; when
it is disconnected the message is dropped with no publish attempt and no
queueing. -/
theorem gateway_data_publish (fromId : Nat) (msg : String) :
    gatewayReceivedCallback true fromId msg
      = [{ topic := dataTopicRoot ++ "/" ++ toString fromId, payload := msg }]
    ∧ gatewayReceivedCallback false fromId msg = [] :=
  ⟨rfl, rfl⟩

/-- C9: the TRACE handler has no hop-count ceiling: for every path record
`hops`, of any length whatsoever, a TRACE whose `to` differs from the
receiving node's identifier is forwarded with the node's identifier
appended — there is no length threshold above which it is dropped. -/
theorem trace_no_hop_ceiling (myId toId fromId seq : Nat)
    (nl : List Nat) (sender : Nat) (hops : List Nat)
    (hto : toId < 4294967296) (hne : toId ≠ myId) :
    receivedCallback myId nl sender (some (traceJson toId fromId seq hops))
      = [Send.single toId (traceJson toId fromId seq (hops ++ [myId]))] :=
  trace_forward_canonical myId toId fromId seq nl sender hops hto hne

theorem trace_no_hop_ceiling_witness :
    receivedCallback 3 [] 0 (some (traceJson 5 1 9 (List.replicate 200 7)))
      = [Send.single 5 (traceJson 5 1 9 (List.replicate 200 7 ++ [3]))] :=
  trace_no_hop_ceiling 3 5 1 9 [] 0 (List.replicate 200 7)
    (by decide) (by decide)

/-- C2: a TRACE envelope with `to = X`, `seq = S`, `from = O`, `hops = H`
delivered along a chain of distinct intermediate nodes ending at node X
yields a TRACE_REPLY unicast to O carrying `seq = S`, `from = X`, and a
hops list equal to H followed by each intermediate identifier in
traversal order followed by X itself. -/
theorem trace_chain_reconstruction (X S O : Nat) (H I : List Nat)
    (hX : X < 4294967296) (hO : O < 4294967296) (hS : S < 4294967296)
    (hH : ∀ h ∈ H, h < 4294967296) (hI : ∀ n ∈ I, n < 4294967296)
    (hnd : (I ++ [X]).Nodup) :
    runChain (traceJson X O S H) (I ++ [X])
      = [Send.single O (traceReplyJson S X (H ++ I ++ [X]))] := by
  induction I generalizing H hH with
  | nil =>
    have hrun : runChain (traceJson X O S H) [X]
        = receivedCallback X [] 0 (some (traceJson X O S H)) := by
      simp [runChain]
    simp only [List.nil_append]
    rw [hrun, trace_dest_canonical X O S [] 0 H hX hO hS hH]
    simp
  | cons n I2 ih =>
    rw [List.cons_append] at hnd ⊢
    obtain ⟨hn, hnd2⟩ := List.nodup_cons.mp hnd
    have hnX : n ≠ X := fun hEq =>
      hn (by rw [hEq]; exact List.mem_append_right I2 (List.mem_singleton_self X))
    have hfwd := trace_forward_canonical n X O S [] 0 H hX (Ne.symm hnX)
    rw [runChain_cons_of_forward _ _ n X (I2 ++ [X]) (by simp) hfwd]
    have hH2 : ∀ h ∈ H ++ [n], h < 4294967296 := by
      intro h hh
      rcases List.mem_append.mp hh with hl | hr
      · exact hH h hl
      · rw [List.mem_singleton.mp hr]
        exact hI n (List.mem_cons_self n I2)
    have hI2 : ∀ m ∈ I2, m < 4294967296 :=
      fun m hm => hI m (List.mem_cons_of_mem n hm)
    rw [ih (H ++ [n]) hH2 hI2 hnd2]
    simp [List.append_assoc]

theorem trace_chain_reconstruction_witness :
    (([2, 3] : List Nat) ++ [5]).Nodup
    ∧ runChain (traceJson 5 1 9 [7]) ([2, 3] ++ [5])
      = [Send.single 1 (traceReplyJson 9 5 ([7] ++ [2, 3] ++ [5]))] :=
  ⟨by decide,
   trace_chain_reconstruction 5 9 1 [7] [2, 3] (by decide) (by decide)
     (by decide) (by decide) (by decide) (by decide)⟩

/-- C5: a node forwarding a TRACE not addressed to itself emits exactly
one unicast to the envelope's `to`, whose document differs from the
received one only in the `hops` member: every other member (`type`,
`to`, `from`, `seq`, and anything else) is unchanged, and `hops` is the
received path record with the node's own identifier appended — its
length grown by exactly one. -/
theorem trace_forward_frame (myId : Nat) (nl : List Nat) (sender : Nat)
    (doc : Json) (t : Nat) (xs : List Json)
    (htype : doc.member "type" = some (Json.str "TRACE"))
    (hto : getU32 doc "to" = t) (hne : t ≠ myId)
    (hhops : doc.member "hops" = some (Json.arr xs)) :
    receivedCallback myId nl sender (some doc)
      = [Send.single t (addHop doc myId)]
    ∧ (∀ k, k ≠ "hops" → (addHop doc myId).member k = doc.member k)
    ∧ (addHop doc myId).member "hops"
        = some (Json.arr (xs ++ [Json.num myId]))
    ∧ (xs ++ [Json.num myId]).length = xs.length + 1 := by
  refine ⟨?_, fun k hk => addHop_member_ne doc myId k hk,
    addHop_member_hops doc myId xs hhops, by simp⟩
  rw [rc_trace_forward myId nl sender doc htype (by rw [hto]; exact hne), hto]

theorem trace_forward_frame_witness :
    receivedCallback 3 [] 0 (some (Json.obj [("type", Json.str "TRACE"),
      ("to", Json.num 5), ("from", Json.num 1), ("seq", Json.num 9),
      ("hops", Json.arr [Json.num 2])]))
      = [Send.single 5 (addHop (Json.obj [("type", Json.str "TRACE"),
          ("to", Json.num 5), ("from", Json.num 1), ("seq", Json.num 9),
          ("hops", Json.arr [Json.num 2])]) 3)]
    ∧ (addHop (Json.obj [("type", Json.str "TRACE"), ("to", Json.num 5),
        ("from", Json.num 1), ("seq", Json.num 9),
        ("hops", Json.arr [Json.num 2])]) 3).member "hops"
        = some (Json.arr [Json.num 2, Json.num 3])
    ∧ (addHop (Json.obj [("type", Json.str "TRACE"), ("to", Json.num 5),
        ("from", Json.num 1), ("seq", Json.num 9),
        ("hops", Json.arr [Json.num 2])]) 3).member "to"
        = (Json.obj [("type", Json.str "TRACE"), ("to", Json.num 5),
            ("from", Json.num 1), ("seq", Json.num 9),
            ("hops", Json.arr [Json.num 2])]).member "to" :=
  ⟨(trace_forward_frame 3 [] 0 (Json.obj [("type", Json.str "TRACE"),
      ("to", Json.num 5), ("from", Json.num 1), ("seq", Json.num 9),
      ("hops", Json.arr [Json.num 2])]) 5 [Json.num 2]
      rfl rfl (by decide) rfl).1,
   (trace_forward_frame 3 [] 0 (Json.obj [("type", Json.str "TRACE"),
      ("to", Json.num 5), ("from", Json.num 1), ("seq", Json.num 9),
      ("hops", Json.arr [Json.num 2])]) 5 [Json.num 2]
      rfl rfl (by decide) rfl).2.2.1,
   (trace_forward_frame 3 [] 0 (Json.obj [("type", Json.str "TRACE"),
      ("to", Json.num 5), ("from", Json.num 1), ("seq", Json.num 9),
      ("hops", Json.arr [Json.num 2])]) 5 [Json.num 2]
      rfl rfl (by decide) rfl).2.1 "to" (by decide)⟩

/-- C10: whenever the gateway's reconnect loop returns, the trace of its
broker actions is some number of failed connect attempts followed by a
successful connect immediately followed by the control-topic
subscription — every pass through the reconnection routine restores the
external-command entry path before returning. -/
theorem reconnect_resubscribes (attempts : List Bool)
    (acts : List BrokerAct) (h : reconnect attempts = some acts) :
    ∃ n, acts = List.replicate n BrokerAct.connectFail
        ++ [BrokerAct.connectOk, BrokerAct.subscribe controlTopic] := by
  induction attempts generalizing acts with
  | nil => simp [reconnect] at h
  | cons ok rest ih =>
    cases ok with
    | true =>
      simp [reconnect] at h
      exact ⟨0, by simp [← h]⟩
    | false =>
      simp only [reconnect, Bool.false_eq_true, if_false] at h
      cases hr : reconnect rest with
      | none => rw [hr] at h; exact absurd h (by simp)
      | some as2 =>
        rw [hr] at h
        simp only [Option.some.injEq] at h
        obtain ⟨n, hn⟩ := ih as2 hr
        refine ⟨n + 1, ?_⟩
        rw [← h, hn]
        simp [List.replicate_succ]

theorem reconnect_resubscribes_witness :
    reconnect [false, true] = some [BrokerAct.connectFail,
      BrokerAct.connectOk, BrokerAct.subscribe controlTopic]
    ∧ ∃ n, [BrokerAct.connectFail, BrokerAct.connectOk,
        BrokerAct.subscribe controlTopic]
        = List.replicate n BrokerAct.connectFail
          ++ [BrokerAct.connectOk, BrokerAct.subscribe controlTopic] :=
  ⟨rfl, reconnect_resubscribes [false, true] _ rfl⟩

/-- C3 (counterexample): the TOPO reply the handler builds for a
TOPO_REQ with `seq = 7` carries no `seq` member at all, so the request's
correlation number is not carried back in the TOPO reply. -/
theorem topo_reply_seq_counterexample :
    receivedCallback 1 [2, 5] 9 (some (Json.obj
      [("type", Json.str "TOPO_REQ"), ("to", Json.num 1),
       ("from", Json.num 9), ("seq", Json.num 7)]))
      = [Send.single 9 (Json.obj [("type", Json.str "TOPO"),
          ("neighbors", Json.arr [Json.num 2, Json.num 5])])]
    ∧ (Json.obj [("type", Json.str "TOPO"),
        ("neighbors", Json.arr [Json.num 2, Json.num 5])]).member "seq"
      = none :=
  ⟨rfl, rfl⟩

/-- C3 (amended): the PONG reply to a PING and the TRACE_REPLY to a
TRACE each carry the request's `seq` verbatim; the TOPO reply to a
TOPO_REQ carries no `seq` member — the correlation number is not echoed
there. -/
theorem seq_correlation (myId : Nat) (nl : List Nat) (sender : Nat)
    (doc : Json) (S : Nat) (hseq : getU32 doc "seq" = S) :
    (doc.member "type" = some (Json.str "PING") →
     getU32 doc "to" = myId →
       receivedCallback myId nl sender (some doc)
         = [Send.single (getU32 doc "from") (pongJson S myId)]
         ∧ (pongJson S myId).member "seq" = some (Json.num S))
    ∧ (∀ xs, doc.member "type" = some (Json.str "TRACE") →
       getU32 doc "to" = myId →
       doc.member "hops" = some (Json.arr xs) →
       ∃ reply, receivedCallback myId nl sender (some doc)
         = [Send.single (getU32 doc "from") reply]
         ∧ reply.member "seq" = some (Json.num S))
    ∧ (doc.member "type" = some (Json.str "TOPO_REQ") →
       ∃ reply, receivedCallback myId nl sender (some doc)
         = [Send.single (getU32 doc "from") reply]
         ∧ reply.member "seq" = none) := by
  refine ⟨?_, ?_, ?_⟩
  · intro htype hto
    rw [rc_ping_hit myId nl sender doc htype hto, hseq]
    exact ⟨rfl, rfl⟩
  · intro xs htype hto hhops
    refine ⟨_, rc_trace_dest myId nl sender doc xs htype hto hhops, ?_⟩
    simp [Json.member, jLookup, hseq]
  · intro htype
    exact ⟨_, rc_topo_req myId nl sender doc htype, rfl⟩

theorem seq_correlation_witness :
    (receivedCallback 5 [] 3 (some (Json.obj [("type", Json.str "PING"),
       ("to", Json.num 5), ("from", Json.num 9), ("seq", Json.num 7)]))
       = [Send.single 9 (pongJson 7 5)]
     ∧ (pongJson 7 5).member "seq" = some (Json.num 7))
    ∧ (∃ reply, receivedCallback 5 [] 3 (some (traceJson 5 1 7 [2]))
       = [Send.single 1 reply]
       ∧ reply.member "seq" = some (Json.num 7))
    ∧ (∃ reply, receivedCallback 1 [2] 9 (some (Json.obj
        [("type", Json.str "TOPO_REQ"), ("from", Json.num 9),
         ("seq", Json.num 7)]))
       = [Send.single 9 reply]
       ∧ reply.member "seq" = none) :=
  ⟨(seq_correlation 5 [] 3 (Json.obj [("type", Json.str "PING"),
      ("to", Json.num 5), ("from", Json.num 9), ("seq", Json.num 7)])
      7 rfl).1 rfl rfl,
   (seq_correlation 5 [] 3 (traceJson 5 1 7 [2]) 7 rfl).2.1
      [Json.num 2] rfl rfl rfl,
   (seq_correlation 1 [2] 9 (Json.obj [("type", Json.str "TOPO_REQ"),
      ("from", Json.num 9), ("seq", Json.num 7)]) 7 rfl).2.2 rfl⟩

/-! ### Codec round trip -/

theorem map_elemU32_num (l : List Nat) (hl : ∀ a ∈ l, a < 4294967296) :
    (l.map Json.num).map elemU32 = l := by
  induction l with
  | nil => rfl
  | cons a as ih =>
    simp only [List.map_cons, List.cons.injEq]
    exact ⟨by simp [elemU32, Nat.mod_eq_of_lt (hl a (List.mem_cons_self a as))],
           ih fun b hb => hl b (List.mem_cons_of_mem a hb)⟩

/-- C8: round-trip law of the envelope codec — decoding the encoding of
every constructible envelope, across all seven types, returns the same
envelope with every field preserved exactly, including the order of the
`hops` sequence. -/
theorem decode_encode_roundtrip (e : Envelope) (h : wfEnvelope e = true) :
    decode (encode e) = e := by
  cases e with
  | data p =>
    show decode p = Envelope.data p
    cases hc : asCString (p.member "type") with
    | none => simp [decode, hc]
    | some t =>
      have h2 : isControlTag (some t) = false := by
        rw [← hc]
        simpa [wfEnvelope, Bool.not_eq_true'] using h
      simp only [isControlTag, Bool.or_eq_false_iff, beq_eq_false_iff_ne,
        ne_eq] at h2
      obtain ⟨⟨⟨⟨⟨hp, hq⟩, hr⟩, hs⟩, ht⟩, hu⟩ := h2
      simp [decode, hc, hp, hq, hr, hs, ht, hu]
  | ping toId fromId seq =>
    simp only [wfEnvelope, Bool.and_eq_true, u32ok, decide_eq_true_eq] at h
    obtain ⟨⟨h1, h2⟩, h3⟩ := h
    show Envelope.ping (toId % 4294967296) (fromId % 4294967296)
        (seq % 4294967296) = Envelope.ping toId fromId seq
    rw [Nat.mod_eq_of_lt h1, Nat.mod_eq_of_lt h2, Nat.mod_eq_of_lt h3]
  | pong seq fromId =>
    simp only [wfEnvelope, Bool.and_eq_true, u32ok, decide_eq_true_eq] at h
    obtain ⟨h1, h2⟩ := h
    show Envelope.pong (seq % 4294967296) (fromId % 4294967296)
        = Envelope.pong seq fromId
    rw [Nat.mod_eq_of_lt h1, Nat.mod_eq_of_lt h2]
  | topoReq toId fromId seq =>
    simp only [wfEnvelope, Bool.and_eq_true, u32ok, decide_eq_true_eq] at h
    obtain ⟨⟨h1, h2⟩, h3⟩ := h
    show Envelope.topoReq (toId % 4294967296) (fromId % 4294967296)
        (seq % 4294967296) = Envelope.topoReq toId fromId seq
    rw [Nat.mod_eq_of_lt h1, Nat.mod_eq_of_lt h2, Nat.mod_eq_of_lt h3]
  | topo neighbors =>
    simp only [wfEnvelope, List.all_eq_true, u32ok, decide_eq_true_eq] at h
    show Envelope.topo ((neighbors.map Json.num).map elemU32)
        = Envelope.topo neighbors
    rw [map_elemU32_num neighbors h]
  | trace toId fromId seq hops =>
    simp only [wfEnvelope, Bool.and_eq_true, List.all_eq_true, u32ok,
      decide_eq_true_eq] at h
    obtain ⟨⟨⟨h1, h2⟩, h3⟩, h4⟩ := h
    show Envelope.trace (toId % 4294967296) (fromId % 4294967296)
        (seq % 4294967296) ((hops.map Json.num).map elemU32)
        = Envelope.trace toId fromId seq hops
    rw [Nat.mod_eq_of_lt h1, Nat.mod_eq_of_lt h2, Nat.mod_eq_of_lt h3,
        map_elemU32_num hops h4]
  | traceReply seq fromId hops =>
    simp only [wfEnvelope, Bool.and_eq_true, List.all_eq_true, u32ok,
      decide_eq_true_eq] at h
    obtain ⟨⟨h1, h2⟩, h3⟩ := h
    show Envelope.traceReply (seq % 4294967296) (fromId % 4294967296)
        ((hops.map Json.num).map elemU32)
        = Envelope.traceReply seq fromId hops
    rw [Nat.mod_eq_of_lt h1, Nat.mod_eq_of_lt h2, map_elemU32_num hops h3]

theorem decode_encode_roundtrip_witness :
    wfEnvelope (Envelope.trace 5 1 9 [2, 3]) = true
    ∧ decode (encode (Envelope.trace 5 1 9 [2, 3]))
        = Envelope.trace 5 1 9 [2, 3] :=
  ⟨rfl, decode_encode_roundtrip (Envelope.trace 5 1 9 [2, 3]) rfl⟩


end Redes
